import Mathlib

/-!
  # Inference-server streaming completion proxy — shallow embedding

  A shallow embedding of the core of the `inference-server-mvp` repository:
  the schema layer (`src/models.py`), the backend client (`src/vllm_client.py`)
  and the request orchestrator / SSE reframer (`src/main.py`).  Pure logic is
  translated to Lean functions; the HTTP and JSON library calls at the
  boundary are represented by explicit input data (a backend response value,
  the decode result of each stream line, the arrival time of each line), so
  every definition stays executable and each branch of the Python source has
  a visible counterpart here.

  Conventions:
  * Python floats that carry request parameters (temperature, top_p, …) are
    embedded as rationals `ℚ`; the bound checks compare exactly as the
    float comparisons do on the representable literals involved.
  * The event-loop clock (`asyncio.get_event_loop().time()`) is embedded as
    an integer timestamp attached to each received line.
  * Fallible Python code (uncaught `KeyError` / `IndexError`, `raise`) is
    embedded with `Option` / explicit abort markers.
-/

namespace InferenceServer

/-! ## Schema layer — `src/models.py`

`ChatCompletionRequest` is a pydantic model; field validation (`Field(ge=…,
le=…)`) runs before the route body.  We embed the inbound payload as
`RawPayload` (absent JSON fields are `none`) and pydantic's per-field checks
as `fieldErrors`, which collects the names of violating fields exactly as
pydantic reports one error location per failed field constraint. -/

/-- A chat message as validated by `models.Message`: the role is constrained
to the closed literal set; content is optional.  (`name`, `tool_calls`,
`tool_call_id` carry no constraints relevant here.) -/
structure Message where
  role : String
  content : Option String
deriving DecidableEq, Repr

/-- The inbound request payload for `ChatCompletionRequest`, with `none` for
absent fields.  Only the constrained fields of `models.ChatCompletionRequest`
are carried; unconstrained optional fields (tools, user, …) do not affect
validation. -/
structure RawPayload where
  model : Option String
  messages : Option (List Message)
  max_tokens : Option Int
  temperature : Option ℚ
  top_p : Option ℚ
  top_k : Option Int
  frequency_penalty : Option ℚ
  presence_penalty : Option ℚ
  repetition_penalty : Option ℚ
  stream : Option Bool
deriving DecidableEq, Repr

/-- Role literal check: `models.Message.role : Literal["system", "user", "assistant", "tool"]`. -/
def roleOk (r : String) : Bool :=
  r == "system" || r == "user" || r == "assistant" || r == "tool"

/-- Validation errors contributed by one message (the role literal check). -/
def messageErrors (m : Message) : List String :=
  if roleOk m.role then [] else ["role"]

/-- Required field `model : str`. -/
def modelErrors (p : RawPayload) : List String :=
  match p.model with
  | none => ["model"]
  | some _ => []

/-- Required field `messages : List[Message]`; each message's role must be in
the closed set. -/
def messagesErrors (p : RawPayload) : List String :=
  match p.messages with
  | none => ["messages"]
  | some ms => ms.foldr (fun m acc => messageErrors m ++ acc) []

/-- Bound check `max_tokens: Field(ge=1, le=131072)` — absent field passes (default
applies later). -/
def maxTokensErrors (p : RawPayload) : List String :=
  match p.max_tokens with
  | none => []
  | some v => if 1 ≤ v ∧ v ≤ 131072 then [] else ["max_tokens"]

/-- Bound check `temperature: Field(ge=0.0, le=2.0)`. -/
def temperatureErrors (p : RawPayload) : List String :=
  match p.temperature with
  | none => []
  | some t => if 0 ≤ t ∧ t ≤ 2 then [] else ["temperature"]

/-- Bound check `top_p: Field(ge=0.0, le=1.0)`. -/
def topPErrors (p : RawPayload) : List String :=
  match p.top_p with
  | none => []
  | some q => if 0 ≤ q ∧ q ≤ 1 then [] else ["top_p"]

/-- Bound check `top_k: Field(ge=1)`. -/
def topKErrors (p : RawPayload) : List String :=
  match p.top_k with
  | none => []
  | some v => if 1 ≤ v then [] else ["top_k"]

/-- Bound check `frequency_penalty: Field(ge=-2.0, le=2.0)`. -/
def frequencyPenaltyErrors (p : RawPayload) : List String :=
  match p.frequency_penalty with
  | none => []
  | some v => if -2 ≤ v ∧ v ≤ 2 then [] else ["frequency_penalty"]

/-- Bound check `presence_penalty: Field(ge=-2.0, le=2.0)`. -/
def presencePenaltyErrors (p : RawPayload) : List String :=
  match p.presence_penalty with
  | none => []
  | some v => if -2 ≤ v ∧ v ≤ 2 then [] else ["presence_penalty"]

/-- Bound check `repetition_penalty: Field(ge=0.0)`. -/
def repetitionPenaltyErrors (p : RawPayload) : List String :=
  match p.repetition_penalty with
  | none => []
  | some v => if 0 ≤ v then [] else ["repetition_penalty"]

/-- All field-level validation errors pydantic reports for the payload, as
the list of offending field names. -/
def fieldErrors (p : RawPayload) : List String :=
  modelErrors p ++ messagesErrors p ++ maxTokensErrors p ++
    temperatureErrors p ++ topPErrors p ++ topKErrors p ++
    frequencyPenaltyErrors p ++ presencePenaltyErrors p ++
    repetitionPenaltyErrors p

/-- The validated request, with pydantic defaults applied
(`max_tokens=4096`, `temperature=0.7`, `top_p=1.0`, `stream=False`). -/
structure ChatCompletionRequest where
  model : String
  messages : List Message
  max_tokens : Int
  temperature : ℚ
  top_p : ℚ
  stream : Bool
deriving DecidableEq, Repr

/-- Schema validation: produce the validated request with defaults applied,
or the structured field-error list.  Mirrors FastAPI's behaviour of running
pydantic validation before the route body executes. -/
def validate (p : RawPayload) : Except (List String) ChatCompletionRequest :=
  if fieldErrors p = [] then
    .ok { model := p.model.getD ""
          messages := p.messages.getD []
          max_tokens := p.max_tokens.getD 4096
          temperature := p.temperature.getD (7 / 10)
          top_p := p.top_p.getD 1
          stream := p.stream.getD false }
  else
    .error (fieldErrors p)

/-- Boolean form of "the three numeric parameters named by the spec are in
range": temperature ∈ [0,2], top_p ∈ [0,1], max_tokens ∈ [1, 131072]
(absent fields are in range — the defaults apply). -/
def paramsOk (p : RawPayload) : Bool :=
  (p.temperature.all fun t => decide (0 ≤ t ∧ t ≤ 2)) &&
  (p.top_p.all fun q => decide (0 ≤ q ∧ q ≤ 1)) &&
  (p.max_tokens.all fun v => decide (1 ≤ v ∧ v ≤ 131072))

/-- Boolean form of "every field other than the three spec-named numeric
parameters validates": the required fields are present and well-formed and
the remaining numeric extensions are in range. -/
def othersOk (p : RawPayload) : Bool :=
  decide (modelErrors p = []) && decide (messagesErrors p = []) &&
  decide (topKErrors p = []) && decide (frequencyPenaltyErrors p = []) &&
  decide (presencePenaltyErrors p = []) &&
  decide (repetitionPenaltyErrors p = [])

/-! ## Backend client — `src/vllm_client.py` -/

/-- The optional usage entries of the backend's JSON response
(`usage.get("prompt_tokens", 0)` etc. default the absent ones to zero). -/
structure BackendUsage where
  prompt_tokens : Option ℕ
  completion_tokens : Option ℕ
  total_tokens : Option ℕ
deriving DecidableEq, Repr

/-- One element of the backend response's `choices` array, as read by
`VLLMClient.generate`: `choice["message"]["content"]` and
`choice.get("finish_reason", "stop")`. -/
structure BackendChoice where
  content : String
  finish_reason : Option String
deriving DecidableEq, Repr

/-- The decoded JSON body of a successful non-streaming backend response:
`data["choices"]` and `data.get("usage", {})`. -/
structure BackendData where
  choices : List BackendChoice
  usage : Option BackendUsage
deriving DecidableEq, Repr

/-- The dictionary `VLLMClient.generate` returns. -/
structure GenResult where
  content : String
  finish_reason : String
  prompt_tokens : ℕ
  completion_tokens : ℕ
  total_tokens : ℕ
deriving DecidableEq, Repr

/-- The empty usage dict `data.get("usage", {})` falls back to. -/
def emptyUsage : BackendUsage := ⟨none, none, none⟩

/-- Response extraction of `VLLMClient.generate` (vllm_client.py:243-255):
take `choices[0]` (an empty `choices` array is the uncaught
`IndexError`, embedded as `none`), default the finish reason to `"stop"`,
and read each usage count with `usage.get(_, 0)` — the total is *read from
the backend*, not computed. -/
def generateExtract (data : BackendData) : Option GenResult :=
  match data.choices with
  | [] => none
  | choice :: _ =>
    let usage := data.usage.getD emptyUsage
    some { content := choice.content
           finish_reason := choice.finish_reason.getD "stop"
           prompt_tokens := usage.prompt_tokens.getD 0
           completion_tokens := usage.completion_tokens.getD 0
           total_tokens := usage.total_tokens.getD 0 }

/-- The outcome of the probe's `GET /health` call, as seen by
`VLLMClient.is_healthy`: either some exception was raised (connection
refused, timeout, …, carried here as its message) or a response with a
status code arrived. -/
inductive ProbeOutcome where
  | exn (reason : String)
  | response (status : ℕ)
deriving DecidableEq, Repr

/-- Embedding of `VLLMClient.is_healthy` (vllm_client.py:146-168): `try: … return
response.status_code == 200 except Exception: return False`. -/
def isHealthy (o : ProbeOutcome) : Bool :=
  match o with
  | .exn _ => false
  | .response status => status == 200

/-- Modelled from the spec: the HTTP "success class" of a response status
(the 2xx range), used by the spec's "success defined purely by
response-status success class" to be compared against `isHealthy`. -/
def specSuccessClass (status : ℕ) : Bool :=
  200 ≤ status && status < 300

/-! ## Streaming reframer — `VLLMClient.generate_stream`
(vllm_client.py:330-372)

The generator consumes the backend's SSE lines.  Each received line is
embedded as a `TimedLine`: the raw line text, the event-loop time at which
it arrives (the `now` read at vllm_client.py:343), and — for data lines —
the result of the `json.loads` library call on its payload (`none` models
`json.JSONDecodeError`).  The nested JSON shape carries the optional
`choices` / `delta` / `content` / `finish_reason` entries the code reads. -/

/-- Python's slice `s[n:]` acts on characters; embedded over the character
list so it computes by structural recursion. -/
def strDrop (s : String) (n : ℕ) : String := String.mk (s.toList.drop n)

/-- Python's slice `s[:n]`, over the character list. -/
def strTake (s : String) (n : ℕ) : String := String.mk (s.toList.take n)

/-- Python's `str.startswith`, over the character lists. -/
def strStartsWith (s pre : String) : Bool := pre.toList.isPrefixOf s.toList

/-- The `delta` object of a decoded stream chunk (`delta.get("content", "")`). -/
structure JsonDelta where
  content : Option String
deriving DecidableEq, Repr

/-- One element of a decoded stream chunk's `choices` array. -/
structure JsonChoice where
  delta : Option JsonDelta
  finish_reason : Option String
deriving DecidableEq, Repr

/-- A decoded stream chunk: `choices` is `none` when the key is absent —
`data["choices"]` then raises an uncaught `KeyError`. -/
structure JsonChunk where
  choices : Option (List JsonChoice)
deriving DecidableEq, Repr

/-- One line received from the backend's streaming response body. -/
structure TimedLine where
  time : Int
  text : String
  json : Option JsonChunk
deriving DecidableEq, Repr

/-- The dictionaries yielded by `generate_stream`: content events carry the
extracted delta and `keep_alive=False`; keep-alive events are
`{"content": "", "keep_alive": True}` (no `finish_reason` key, so the
consumer's `chunk.get("finish_reason")` reads `None`). -/
structure StreamEvent where
  content : String
  finish_reason : Option String
  keep_alive : Bool
deriving DecidableEq, Repr

/-- The keep-alive event `{"content": "", "keep_alive": True}`. -/
def keepAliveEvent : StreamEvent :=
  { content := "", finish_reason := none, keep_alive := true }

/-- The uncaught exceptions that can escape the stream generator's
per-line processing: `data["choices"]` on a chunk without the key
(`KeyError`) and `choices[0]` on an empty array (`IndexError`).  Only
`json.JSONDecodeError` is caught at vllm_client.py:370. -/
inductive StreamAbort where
  | keyError
  | indexError
deriving DecidableEq, Repr

/-- Per-chunk extraction inside the `try` of vllm_client.py:360-369:
`data["choices"][0]`, `choice.get("delta", {})`, `delta.get("content",
"")`, `choice.get("finish_reason")`.  An `error` is an exception the
`except json.JSONDecodeError` clause does not catch. -/
def extractChunk (j : JsonChunk) : Except StreamAbort StreamEvent :=
  match j.choices with
  | none => .error .keyError
  | some [] => .error .indexError
  | some (choice :: _) =>
      .ok { content := ((choice.delta.getD ⟨none⟩).content.getD "")
            finish_reason := choice.finish_reason
            keep_alive := false }

/-- The keep-alive events emitted at the arrival of line `l` when the timer
check `now - last_keep_alive > keep_alive_interval` fires
(vllm_client.py:343-346). -/
def kaEvents (interval last : Int) (l : TimedLine) : List StreamEvent :=
  if interval < l.time - last then [keepAliveEvent] else []

/-- The value of `last_keep_alive` after the timer check at line `l`. -/
def kaReset (interval last : Int) (l : TimedLine) : Int :=
  if interval < l.time - last then l.time else last

/-- The body of `generate_stream`'s `async for line` loop
(vllm_client.py:341-372), over the received lines: run the timer check,
then skip blank and non-`data: ` lines, stop at the `[DONE]` sentinel,
skip `json.JSONDecodeError` payloads, and otherwise yield the extracted
event — or abort the whole generator if the extraction raises.  Returns
the yielded events together with the escaping exception, if any. -/
def streamLoop (interval : Int) (last : Int) :
    List TimedLine → List StreamEvent × Option StreamAbort
  | [] => ([], none)
  | l :: rest =>
    let ka := kaEvents interval last l
    let last' := kaReset interval last l
    let tail : List StreamEvent × Option StreamAbort :=
      if l.text = "" ∨ ¬ (strStartsWith l.text "data: ") then
        streamLoop interval last' rest
      else if strDrop l.text 6 = "[DONE]" then
        ([], none)
      else
        match l.json with
        | none => streamLoop interval last' rest
        | some j =>
          match extractChunk j with
          | .error k => ([], some k)
          | .ok ev =>
            let r := streamLoop interval last' rest
            (ev :: r.1, r.2)
    (ka ++ tail.1, tail.2)

/-- Embedding of `VLLMClient.generate_stream` on a given backend line sequence:
`last_keep_alive` starts at the stream-start clock reading
(vllm_client.py:331); the default `keep_alive_interval` is 15. -/
def generateStream (interval startTime : Int) (lines : List TimedLine) :
    List StreamEvent × Option StreamAbort :=
  streamLoop interval startTime lines

/-! ## Mock client — `MockVLLMClient` (vllm_client.py:375-491) -/

/-- Python's `str.split()` with no separator: split on runs of whitespace,
discarding empty fragments.  `acc` is the current in-progress word,
accumulated in reverse. -/
def pySplitAux : List Char → List Char → List String
  | [], [] => []
  | [], acc => [String.mk acc.reverse]
  | c :: cs, acc =>
    if c.isWhitespace then
      match acc with
      | [] => pySplitAux cs []
      | _ :: _ => String.mk acc.reverse :: pySplitAux cs []
    else
      pySplitAux cs (c :: acc)

/-- Python's `str.split()` (whitespace splitting, no empty tokens). -/
def pySplit (s : String) : List String := pySplitAux s.toList []

/-- The echoed user content chosen by `MockVLLMClient.generate`: the last
message with role `"user"`, defaulting to `{"content": "Hello!"}`; a `None`
content is turned into `""` by `get_content(last_user) or ""`. -/
def mockUserContent (messages : List Message) : String :=
  match messages.reverse.find? (fun m => m.role == "user") with
  | none => "Hello!"
  | some m => m.content.getD ""

/-- The mock response text: `f"Mock response to: {user_content[:50]}"`. -/
def mockContent (messages : List Message) : String :=
  "Mock response to: " ++ strTake (mockUserContent messages) 50

/-- Embedding of `MockVLLMClient.generate` (vllm_client.py:411-457): fixed prompt count
10, completion count = word count of the content, total = their sum. -/
def mockGenerate (messages : List Message) : GenResult :=
  let content := mockContent messages
  { content := content
    finish_reason := "stop"
    prompt_tokens := 10
    completion_tokens := (pySplit content).length
    total_tokens := 10 + (pySplit content).length }

/-- The chunk list `MockVLLMClient.generate_stream` yields for a given word
list: one chunk per word (`word + " "`), `finish_reason="stop"` exactly on
the last index, `keep_alive=False` throughout (vllm_client.py:485-490). -/
def mockChunksOf (words : List String) : List StreamEvent :=
  words.enum.map fun p =>
    { content := p.2 ++ " "
      finish_reason := if p.1 = words.length - 1 then some "stop" else none
      keep_alive := false }

/-- Embedding of `MockVLLMClient.generate_stream`: split the buffered response's content
into words and stream them. -/
def mockStream (messages : List Message) : List StreamEvent :=
  mockChunksOf (pySplit (mockGenerate messages).content)

/-! ## SSE layer and orchestrator — `src/main.py` -/

/-- One item of the caller-facing SSE output of `stream_chat_completion`:
a `data: `-prefixed chunk envelope (echoing the request id, creation
timestamp and model on every chunk), the `: keep-alive` comment line, or
the final `data: [DONE]` marker. -/
inductive SSEOut where
  | dataChunk (id : String) (created : Int) (model : String)
      (content : String) (finish_reason : Option String)
  | keepAliveComment
  | doneMarker
deriving DecidableEq, Repr

/-- The JSON body `stream_chat_completion` builds for one chunk
(main.py:384-397), rendered with `JSONResponse`'s compact separators. -/
def serializeChunk (rid : String) (created : Int) (model : String)
    (content : String) (finish_reason : Option String) : String :=
  "\x7b\"id\":\"" ++ rid ++ "\",\"object\":\"chat.completion.chunk\"," ++
    "\"created\":" ++ toString created ++ ",\"model\":\"" ++ model ++
    "\",\"choices\":[\x7b\"index\":0,\"delta\":\x7b\"content\":\"" ++
    content ++ "\"\x7d,\"finish_reason\":" ++
    (match finish_reason with
     | none => "null"
     | some f => "\"" ++ f ++ "\"") ++ "\x7d]\x7d"

/-- The wire string of one SSE output item (main.py:398, 403, 406). -/
def renderSSE : SSEOut → String
  | .dataChunk rid created model content finish =>
      "data: " ++ serializeChunk rid created model content finish ++ "\n\n"
  | .keepAliveComment => ": keep-alive\n\n"
  | .doneMarker => "data: [DONE]\n\n"

/-- The SSE items one loop iteration of `stream_chat_completion` yields for
one chunk (main.py:383-403): *always* a `data: ` chunk envelope first, then
additionally the `: keep-alive` comment when the chunk carries
`keep_alive=True`. -/
def chunkLines (rid : String) (created : Int) (model : String)
    (c : StreamEvent) : List SSEOut :=
  [.dataChunk rid created model c.content c.finish_reason] ++
    (if c.keep_alive then [.keepAliveComment] else [])

/-- The loop of `stream_chat_completion` over the client's chunk sequence. -/
def sseOfChunks (rid : String) (created : Int) (model : String) :
    List StreamEvent → List SSEOut
  | [] => []
  | c :: cs => chunkLines rid created model c ++ sseOfChunks rid created model cs

/-- Embedding of `stream_chat_completion` (main.py:350-406): reframe every chunk, then
append the single `data: [DONE]` end-of-stream marker. -/
def streamChatCompletion (rid : String) (created : Int) (model : String)
    (chunks : List StreamEvent) : List SSEOut :=
  sseOfChunks rid created model chunks ++ [.doneMarker]

/-- The process-lifetime counters kept on `app.state` (main.py:104-105). -/
structure AppState where
  request_count : ℕ
  error_count : ℕ
deriving DecidableEq, Repr

/-- The OpenAI-style error envelope built by `http_exception_handler`
(main.py:431-440): message, coarse category tag, numeric code. -/
structure ErrorEnvelope where
  message : String
  type : String
  code : ℕ
deriving DecidableEq, Repr

/-- The non-streaming response envelope assembled by
`generate_chat_completion` (main.py:327-347). -/
structure ChatCompletionResponse where
  id : String
  model : String
  content : String
  finish_reason : String
  prompt_tokens : ℕ
  completion_tokens : ℕ
  total_tokens : ℕ
deriving DecidableEq, Repr

/-- What the caller of `POST /api/v1/chat/completions` receives. -/
inductive HttpResponse where
  | validationFailure (fields : List String)
  | completion (resp : ChatCompletionResponse)
  | streaming (items : List SSEOut)
  | errorResponse (status : ℕ) (envelope : ErrorEnvelope)
deriving DecidableEq, Repr

/-- The envelope assembly of `generate_chat_completion` (main.py:327-347) from
the client's `generate` result. -/
def buildCompletion (rid : String) (req : ChatCompletionRequest)
    (r : GenResult) : ChatCompletionResponse :=
  { id := rid
    model := req.model
    content := r.content
    finish_reason := r.finish_reason
    prompt_tokens := r.prompt_tokens
    completion_tokens := r.completion_tokens
    total_tokens := r.total_tokens }

/-- The `chat_completions` route (main.py:241-298) plus the pydantic
validation FastAPI runs before it and the `HTTPException` handler after it.
The backend interaction is supplied as input: `gen` is the outcome of the
buffered `generate` call (`.error e` an exception whose `str(e)` is `e`),
`chunks` the streaming client's chunk sequence.  On a validation failure
the route body never runs; otherwise the request counter is incremented,
then the streaming or buffered path is taken; an exception escaping the
buffered path increments the error counter and becomes
`HTTPException(500, str(e))`, rendered by `http_exception_handler` as the
envelope `{message: str(e), type: "api_error", code: 500}`. -/
def chatEndpoint (rid : String) (created : Int) (st : AppState)
    (p : RawPayload) (gen : Except String GenResult)
    (chunks : List StreamEvent) : AppState × HttpResponse :=
  match validate p with
  | .error errs => (st, .validationFailure errs)
  | .ok req =>
    let st1 : AppState := { st with request_count := st.request_count + 1 }
    if req.stream then
      (st1, .streaming (streamChatCompletion rid created req.model chunks))
    else
      match gen with
      | .ok r => (st1, .completion (buildCompletion rid req r))
      | .error e =>
        ({ st1 with error_count := st1.error_count + 1 },
         .errorResponse 500 { message := e, type := "api_error", code := 500 })

/-- The error-rate computation of the `/health` endpoint (main.py:173-175):
`error_count / request_count if request_count > 0 else 0.0`. -/
def healthErrorRate (request_count error_count : ℕ) : ℚ :=
  if request_count > 0 then (error_count : ℚ) / (request_count : ℚ) else 0

end InferenceServer

namespace InferenceServer

/-! ## Concrete example inputs used by witnesses and counterexamples -/

/-- A payload that validates: required fields present, all numeric
parameters left to their defaults, `stream=false`. -/
def okPayload : RawPayload :=
  { model := some "test-model"
    messages := some [{ role := "user", content := some "hi" }]
    max_tokens := none, temperature := none, top_p := none, top_k := none
    frequency_penalty := none, presence_penalty := none
    repetition_penalty := none, stream := some false }

/-- The spec's rejection scenario: `{model:"m", messages:[{role:"user",
content:"hi"}], max_tokens:100, temperature:3.0}`. -/
def badTempPayload : RawPayload :=
  { model := some "m"
    messages := some [{ role := "user", content := some "hi" }]
    max_tokens := some 100, temperature := some 3, top_p := none
    top_k := none, frequency_penalty := none, presence_penalty := none
    repetition_penalty := none, stream := none }

/-- A backend stream line whose payload `\x7b\x7d` is valid JSON but is not a
valid event (no `choices` key). -/
def malformedEventLine : TimedLine :=
  { time := 0, text := "data: \x7b\x7d", json := some { choices := none } }

/-- A well-formed backend content line carrying the delta `"hi"`. -/
def contentLine : TimedLine :=
  ⟨1, "data: \x7b\"choices\":[\x7b\"delta\":\x7b\"content\":\"hi\"\x7d\x7d]\x7d",
    some ⟨some [⟨some ⟨some "hi"⟩, none⟩]⟩⟩

/-- A backend stream line whose payload is not valid JSON
(`json.JSONDecodeError`). -/
def undecodableLine : TimedLine :=
  { time := 0, text := "data: not-json", json := none }

/-! ## Helper lemmas -/

/-- The extraction of a successfully decoded stream chunk is never a
keep-alive event. -/
theorem extractChunk_ok_not_keepalive {j : JsonChunk} {ev : StreamEvent}
    (h : extractChunk j = .ok ev) : ev.keep_alive = false := by
  rcases j with ⟨choices⟩
  rcases choices with _ | ⟨_ | ⟨c, cs⟩⟩ <;>
    simp [extractChunk] at h
  rw [← h]

/-- A validation failure short-circuits the whole endpoint: the state is
untouched and the response is the structured 422, independent of any
backend interaction. -/
theorem chatEndpoint_of_validate_error {p : RawPayload} {errs : List String}
    (h : validate p = .error errs) (rid : String) (created : Int)
    (st : AppState) (gen : Except String GenResult)
    (chunks : List StreamEvent) :
    chatEndpoint rid created st p gen chunks = (st, .validationFailure errs) := by
  simp [chatEndpoint, h]

/-! ## C10 — the health endpoint's error-rate computation is total -/

/-- C10: the `/health` error-rate computation is total: with a zero request
counter it returns `0` instead of dividing by zero, and with a positive
request counter it returns errors divided by requests.  (In the embedding
`healthErrorRate` is a total function by construction, so the computation
can never raise.) -/
theorem healthErrorRate_total :
    (∀ e : ℕ, healthErrorRate 0 e = 0) ∧
    (∀ r e : ℕ, 0 < r → healthErrorRate r e = (e : ℚ) / (r : ℚ)) := by
  constructor
  · intro e; simp [healthErrorRate]
  · intro r e hr; simp [healthErrorRate, hr]

/-- C10 witness: the computation at concrete counter values. -/
theorem healthErrorRate_total_witness :
    healthErrorRate 0 5 = 0 ∧ healthErrorRate 4 1 = (1 : ℚ) / 4 :=
  ⟨healthErrorRate_total.1 5, healthErrorRate_total.2 4 1 (by decide)⟩

/-! ## C3 — the liveness probe -/

/-- C3 counterexample: a probe response with status 204 is in the HTTP
success class, yet `is_healthy` returns `false` — the probe tests
`status_code == 200`, not success-class membership. -/
theorem isHealthy_success_class_cex :
    isHealthy (.response 204) = false ∧ specSuccessClass 204 = true := by
  decide

/-- C3 (amended): the probe never propagates a failure — every raised
exception yields `false` — and it returns `true` exactly when the backend's
probe response has status exactly 200. -/
theorem isHealthy_iff_status_200 :
    (∀ reason, isHealthy (.exn reason) = false) ∧
    (∀ status, isHealthy (.response status) = true ↔ status = 200) := by
  constructor
  · intro reason; rfl
  · intro status; simp [isHealthy]

/-! ## C1 — usage counts of the buffered result -/

/-- C1 counterexample: a backend response whose usage carries
`{prompt:10, completion:5}` and no total yields a buffered result with
`total_tokens = 0`, not `15`: the total is read from the backend's usage,
never computed as the sum. -/
theorem generate_total_cex :
    generateExtract
        { choices := [{ content := "hi", finish_reason := some "stop" }]
          usage := some { prompt_tokens := some 10, completion_tokens := some 5
                          total_tokens := none } } =
      some { content := "hi", finish_reason := "stop", prompt_tokens := 10
             completion_tokens := 5, total_tokens := 0 } ∧
    (0 : ℕ) ≠ 10 + 5 := by
  decide

/-- C1 (amended): `generate` passes the backend's reported usage counts
through unchanged, defaulting each absent count to zero; consequently
`total = prompt + completion` holds exactly when the backend's reported
(defaulted) counts satisfy it — e.g. for a backend that reports
`total_tokens` as the sum, as OpenAI-compatible servers do. -/
theorem generate_usage_passthrough (data : BackendData) (r : GenResult)
    (h : generateExtract data = some r) :
    (r.prompt_tokens = (data.usage.getD emptyUsage).prompt_tokens.getD 0 ∧
     r.completion_tokens = (data.usage.getD emptyUsage).completion_tokens.getD 0 ∧
     r.total_tokens = (data.usage.getD emptyUsage).total_tokens.getD 0) ∧
    ((data.usage.getD emptyUsage).total_tokens =
        some ((data.usage.getD emptyUsage).prompt_tokens.getD 0 +
          (data.usage.getD emptyUsage).completion_tokens.getD 0) →
      r.total_tokens = r.prompt_tokens + r.completion_tokens) := by
  rcases data with ⟨choices, usage⟩
  rcases choices with _ | ⟨c, cs⟩
  · simp [generateExtract] at h
  · simp only [generateExtract] at h
    rw [← Option.some_inj.mp h]
    refine ⟨⟨rfl, rfl, rfl⟩, ?_⟩
    intro htot
    simp [htot]

/-- C1 witness: a backend usage reporting the total as the sum yields a
buffered result satisfying `total = prompt + completion`. -/
theorem generate_usage_passthrough_witness :
    ∃ r, generateExtract
        { choices := [{ content := "hi", finish_reason := some "stop" }]
          usage := some { prompt_tokens := some 10, completion_tokens := some 5
                          total_tokens := some 15 } } = some r ∧
      r.total_tokens = r.prompt_tokens + r.completion_tokens := by
  have h : generateExtract
      { choices := [{ content := "hi", finish_reason := some "stop" }]
        usage := some { prompt_tokens := some 10, completion_tokens := some 5
                        total_tokens := some 15 } } =
      some { content := "hi", finish_reason := "stop", prompt_tokens := 10
             completion_tokens := 5, total_tokens := 15 } := by decide
  exact ⟨_, h, (generate_usage_passthrough _ _ h).2 (by decide)⟩

/-! ## C2 — exceptions escaping the completion path -/

/-- C2 counterexample: an exception with text `"boom"` escaping the
buffered path increments both counters and produces the 500 envelope — but
the envelope's message *is* the exception's text (`detail=str(e)` at
main.py:298, rendered verbatim by `http_exception_handler`), so the
underlying cause is exposed to the caller. -/
theorem buffered_error_exposes_exception_cex :
    chatEndpoint "rid" 0 { request_count := 0, error_count := 0 } okPayload
        (.error "boom") [] =
      ({ request_count := 1, error_count := 1 },
       .errorResponse 500 { message := "boom", type := "api_error", code := 500 }) := by
  decide

/-- C2 (amended): every exception escaping the buffered completion path
increments the error counter and yields a 500 failure with the uniform
envelope (message, category tag `"api_error"`, numeric code 500) — whose
message is the stringified underlying exception, i.e. the exception text
*is* exposed to the caller. -/
theorem buffered_error_envelope (rid : String) (created : Int)
    (st : AppState) (p : RawPayload) (req : ChatCompletionRequest)
    (e : String) (chunks : List StreamEvent)
    (hval : validate p = .ok req) (hstream : req.stream = false) :
    chatEndpoint rid created st p (.error e) chunks =
      ({ request_count := st.request_count + 1, error_count := st.error_count + 1 },
       .errorResponse 500 { message := e, type := "api_error", code := 500 }) := by
  simp [chatEndpoint, hval, hstream]

/-- C2 witness: the amended statement at a concrete valid payload, state
and exception. -/
theorem buffered_error_envelope_witness :
    chatEndpoint "w" 3 { request_count := 7, error_count := 2 } okPayload
        (.error "oops") [] =
      ({ request_count := 8, error_count := 3 },
       .errorResponse 500 { message := "oops", type := "api_error", code := 500 }) :=
  buffered_error_envelope "w" 3 _ okPayload
    { model := "test-model", messages := [{ role := "user", content := some "hi" }]
      max_tokens := 4096, temperature := 7 / 10, top_p := 1, stream := false }
    "oops" [] rfl rfl

/-! ## C9 — counters and validation-rejected requests -/

/-- C9: a request rejected by schema validation leaves the whole counter
state unchanged (neither the request counter nor the error counter moves,
and no backend interaction is examined), while a request that validates
increments the request counter by exactly one. -/
theorem counters_frame_on_validation (rid : String) (created : Int)
    (st : AppState) (p : RawPayload) (gen : Except String GenResult)
    (chunks : List StreamEvent) :
    (∀ errs, validate p = .error errs →
      chatEndpoint rid created st p gen chunks = (st, .validationFailure errs)) ∧
    (∀ req, validate p = .ok req →
      (chatEndpoint rid created st p gen chunks).1.request_count =
        st.request_count + 1) := by
  constructor
  · intro errs h
    exact chatEndpoint_of_validate_error h rid created st gen chunks
  · intro req h
    rcases hs : req.stream with _ | _ <;> rcases gen with e | r <;>
      simp [chatEndpoint, h, hs]

/-- C9 witness: the spec's invalid-temperature payload leaves the counters
at their prior values. -/
theorem counters_frame_on_validation_witness :
    chatEndpoint "rid" 5 { request_count := 2, error_count := 1 } badTempPayload
        (.error "boom") [] =
      ({ request_count := 2, error_count := 1 },
       .validationFailure ["temperature"]) :=
  (counters_frame_on_validation "rid" 5 _ badTempPayload (.error "boom") []).1
    ["temperature"] rfl

end InferenceServer

namespace InferenceServer

/-! ## C4 — numeric parameter bounds -/

/-- The temperature field check passes exactly when the (optional) value is
in `[0, 2]`. -/
theorem temperatureErrors_nil (p : RawPayload) :
    temperatureErrors p = [] ↔
      (p.temperature.all fun t => decide (0 ≤ t ∧ t ≤ 2)) = true := by
  rcases ht : p.temperature with _ | t
  · simp [temperatureErrors, ht]
  · by_cases hc : 0 ≤ t ∧ t ≤ 2 <;> simp [temperatureErrors, ht, hc]

/-- The top_p field check passes exactly when the (optional) value is in
`[0, 1]`. -/
theorem topPErrors_nil (p : RawPayload) :
    topPErrors p = [] ↔
      (p.top_p.all fun q => decide (0 ≤ q ∧ q ≤ 1)) = true := by
  rcases hq : p.top_p with _ | q
  · simp [topPErrors, hq]
  · by_cases hc : 0 ≤ q ∧ q ≤ 1 <;> simp [topPErrors, hq, hc]

/-- The max_tokens field check passes exactly when the (optional) value is
in `[1, 131072]`. -/
theorem maxTokensErrors_nil (p : RawPayload) :
    maxTokensErrors p = [] ↔
      (p.max_tokens.all fun v => decide (1 ≤ v ∧ v ≤ 131072)) = true := by
  rcases hm : p.max_tokens with _ | m
  · simp [maxTokensErrors, hm]
  · by_cases hc : 1 ≤ m ∧ m ≤ 131072 <;> simp [maxTokensErrors, hm, hc]

/-- The predicate `paramsOk` holds exactly when "the three spec-named field checks produce no
error". -/
theorem paramsOk_iff (p : RawPayload) :
    paramsOk p = true ↔
      (maxTokensErrors p = [] ∧ temperatureErrors p = [] ∧ topPErrors p = []) := by
  simp only [paramsOk, Bool.and_eq_true, temperatureErrors_nil, topPErrors_nil,
    maxTokensErrors_nil]
  tauto

/-- Any error the max_tokens check produces names the field. -/
theorem mem_maxTokensErrors {p : RawPayload} {f : String}
    (h : f ∈ maxTokensErrors p) : f = "max_tokens" := by
  rcases hm : p.max_tokens with _ | m
  · simp [maxTokensErrors, hm] at h
  · by_cases hc : 1 ≤ m ∧ m ≤ 131072
    · simp [maxTokensErrors, hm, hc] at h
    · simp [maxTokensErrors, hm, hc] at h; exact h

/-- Any error the temperature check produces names the field. -/
theorem mem_temperatureErrors {p : RawPayload} {f : String}
    (h : f ∈ temperatureErrors p) : f = "temperature" := by
  rcases ht : p.temperature with _ | t
  · simp [temperatureErrors, ht] at h
  · by_cases hc : 0 ≤ t ∧ t ≤ 2
    · simp [temperatureErrors, ht, hc] at h
    · simp [temperatureErrors, ht, hc] at h; exact h

/-- Any error the top_p check produces names the field. -/
theorem mem_topPErrors {p : RawPayload} {f : String}
    (h : f ∈ topPErrors p) : f = "top_p" := by
  rcases hq : p.top_p with _ | q
  · simp [topPErrors, hq] at h
  · by_cases hc : 0 ≤ q ∧ q ≤ 1
    · simp [topPErrors, hq, hc] at h
    · simp [topPErrors, hq, hc] at h; exact h

/-- When every other field validates, the error list reduces to the three
spec-named numeric checks. -/
theorem fieldErrors_of_othersOk {p : RawPayload} (ho : othersOk p = true) :
    fieldErrors p = maxTokensErrors p ++ temperatureErrors p ++ topPErrors p := by
  simp only [othersOk, Bool.and_eq_true, decide_eq_true_eq] at ho
  obtain ⟨⟨⟨⟨⟨h1, h2⟩, h3⟩, h4⟩, h5⟩, h6⟩ := ho
  simp [fieldErrors, h1, h2, h3, h4, h5, h6]

/-- C4: for a payload whose remaining fields validate, schema validation
succeeds exactly when temperature ∈ [0,2], top_p ∈ [0,1] and max_tokens ∈
[1, 131072]; when one of them is out of range, validation fails with an
error list that is nonempty and names only offending numeric fields, and
the endpoint returns the structured 422 with the state untouched and the
backend interaction never examined. -/
theorem request_validation_bounds (p : RawPayload) (ho : othersOk p = true) :
    ((∃ req, validate p = .ok req) ↔ paramsOk p = true) ∧
    (paramsOk p = false →
      fieldErrors p ≠ [] ∧
      (∀ f ∈ fieldErrors p, f = "max_tokens" ∨ f = "temperature" ∨ f = "top_p") ∧
      (∀ rid created st gen chunks,
        chatEndpoint rid created st p gen chunks =
          (st, .validationFailure (fieldErrors p)))) := by
  have hfe := fieldErrors_of_othersOk ho
  constructor
  · constructor
    · rintro ⟨req, hreq⟩
      have hf : fieldErrors p = [] := by
        by_cases hf : fieldErrors p = []
        · exact hf
        · simp [validate, hf] at hreq
      rw [hfe] at hf
      simp only [List.append_eq_nil] at hf
      exact (paramsOk_iff p).mpr ⟨hf.1.1, hf.1.2, hf.2⟩
    · intro hp
      obtain ⟨h1, h2, h3⟩ := (paramsOk_iff p).mp hp
      have hf : fieldErrors p = [] := by rw [hfe, h1, h2, h3]; rfl
      exact ⟨{ model := p.model.getD "", messages := p.messages.getD []
               max_tokens := p.max_tokens.getD 4096
               temperature := p.temperature.getD (7 / 10)
               top_p := p.top_p.getD 1, stream := p.stream.getD false },
             by simp [validate, hf]⟩
  · intro hp
    have hne : fieldErrors p ≠ [] := by
      intro hf
      rw [hfe] at hf
      simp only [List.append_eq_nil] at hf
      have := (paramsOk_iff p).mpr ⟨hf.1.1, hf.1.2, hf.2⟩
      rw [this] at hp
      cases hp
    refine ⟨hne, ?_, ?_⟩
    · intro f hf
      rw [hfe] at hf
      rcases List.mem_append.mp hf with h' | h'
      · rcases List.mem_append.mp h' with h'' | h''
        · exact .inl (mem_maxTokensErrors h'')
        · exact .inr (.inl (mem_temperatureErrors h''))
      · exact .inr (.inr (mem_topPErrors h'))
    · intro rid created st gen chunks
      exact chatEndpoint_of_validate_error (by simp [validate, hne]) rid created
        st gen chunks

/-- C4 witness: the spec's `temperature: 3.0` payload is rejected with a
temperature-naming error, and the endpoint returns the structured failure
without touching the state or the backend. -/
theorem request_validation_bounds_witness :
    "temperature" ∈ fieldErrors badTempPayload ∧
    chatEndpoint "id" 0 { request_count := 0, error_count := 0 } badTempPayload
        (.error "x") [] =
      ({ request_count := 0, error_count := 0 },
       .validationFailure (fieldErrors badTempPayload)) := by
  have h := (request_validation_bounds badTempPayload (by decide)).2 (by decide)
  exact ⟨by decide, h.2.2 "id" 0 _ (.error "x") []⟩

end InferenceServer

namespace InferenceServer

/-! ## C5 — keep-alive timing -/

/-- C5: (a) when a backend line arrives after a production gap larger than
the keep-alive interval, the events produced from that point start with a
keep-alive event — so a keep-alive is emitted before the next content
event; (b) no keep-alive event in any stream output ever carries a finish
reason. -/
theorem stream_keepalive :
    (∀ (interval last : Int) (l : TimedLine) (rest : List TimedLine),
      interval < l.time - last →
      ∃ tail ab, streamLoop interval last (l :: rest) =
        (keepAliveEvent :: tail, ab)) ∧
    (∀ (interval : Int) (lines : List TimedLine) (last : Int)
        (e : StreamEvent),
      e ∈ (streamLoop interval last lines).1 → e.keep_alive = true →
      e.finish_reason = none) := by
  constructor
  · intro interval last l rest h
    simp only [streamLoop, kaEvents, if_pos h, List.cons_append,
      List.nil_append]
    exact ⟨_, _, rfl⟩
  · intro interval lines
    induction lines with
    | nil =>
      intro last e he
      simp [streamLoop] at he
    | cons l rest IH =>
      intro last e he hk
      simp only [streamLoop] at he
      rcases List.mem_append.mp he with hka | htail
      · by_cases hd : interval < l.time - last
        · simp only [kaEvents, if_pos hd, List.mem_singleton] at hka
          rw [hka]
          rfl
        · simp [kaEvents, if_neg hd] at hka
      · by_cases hc1 : l.text = "" ∨ ¬ (strStartsWith l.text "data: ")
        · rw [if_pos hc1] at htail
          exact IH _ _ htail hk
        · rw [if_neg hc1] at htail
          by_cases hc2 : strDrop l.text 6 = "[DONE]"
          · rw [if_pos hc2] at htail
            simp at htail
          · rw [if_neg hc2] at htail
            rcases hj : l.json with _ | j
            · simp only [hj] at htail
              exact IH _ _ htail hk
            · simp only [hj] at htail
              rcases hx : extractChunk j with k | ev
              · simp only [hx] at htail
                simp at htail
              · simp only [hx] at htail
                simp only [List.mem_cons] at htail
                rcases htail with rfl | hmem
                · exact absurd hk
                    (by simp [extractChunk_ok_not_keepalive hx])
                · exact IH _ _ hmem hk

/-- C5 witness: with interval 15 and stream start at time 0, a line
arriving at time 16 is preceded by a keep-alive event, and that event
carries no finish reason. -/
theorem stream_keepalive_witness :
    (∃ tail ab, streamLoop 15 0 [⟨16, "", none⟩] =
      (keepAliveEvent :: tail, ab)) ∧
    keepAliveEvent.finish_reason = none :=
  ⟨stream_keepalive.1 15 0 ⟨16, "", none⟩ [] (by decide),
   stream_keepalive.2 15 [⟨16, "", none⟩] 0 keepAliveEvent (by decide) (by decide)⟩

/-! ## C7 — malformed backend stream fragments -/

/-- C7 counterexample: a line whose payload is valid JSON but not a valid
event (`\x7b\x7d`: no `choices` entry) does *not* get discarded — the
uncaught `KeyError` escapes the generator and aborts the stream, so the
following well-formed content line is never delivered. -/
theorem stream_decode_abort_cex :
    streamLoop 15 0 [malformedEventLine, contentLine] =
      ([], some .keyError) := by
  decide

/-- C7 (amended): a line whose payload fails *JSON decoding* is silently
discarded and the stream continues with the remaining lines (only the
keep-alive timer effect of its arrival remains); but a line whose payload
decodes as JSON while lacking the `choices` entry raises an uncaught
`KeyError` that aborts the stream. -/
theorem stream_decode_skip (interval last : Int) (l : TimedLine)
    (rest : List TimedLine) (hstart : strStartsWith l.text "data: " = true)
    (hdone : strDrop l.text 6 ≠ "[DONE]") :
    (l.json = none →
      streamLoop interval last (l :: rest) =
        (kaEvents interval last l ++
          (streamLoop interval (kaReset interval last l) rest).1,
         (streamLoop interval (kaReset interval last l) rest).2)) ∧
    (∀ j, l.json = some j → j.choices = none →
      streamLoop interval last (l :: rest) =
        (kaEvents interval last l, some .keyError)) := by
  have hne : ¬ (l.text = "" ∨ ¬ (strStartsWith l.text "data: ")) := by
    rintro (h1 | h2)
    · rw [h1] at hstart
      exact absurd hstart (by decide)
    · exact h2 hstart
  constructor
  · intro hj
    simp only [streamLoop, if_neg hne, if_neg hdone, hj]
  · intro j hj hchoice
    have hx : extractChunk j = .error .keyError := by
      simp [extractChunk, hchoice]
    simp only [streamLoop, if_neg hne, if_neg hdone, hj, hx, List.append_nil]

/-- C7 witness: a payload that is not valid JSON is skipped — the stream
continues with the following content line intact. -/
theorem stream_decode_skip_witness :
    streamLoop 15 0 [undecodableLine, contentLine] =
      (kaEvents 15 0 undecodableLine ++
        (streamLoop 15 (kaReset 15 0 undecodableLine) [contentLine]).1,
       (streamLoop 15 (kaReset 15 0 undecodableLine) [contentLine]).2) :=
  (stream_decode_skip 15 0 undecodableLine [contentLine] (by decide)
    (by decide)).1 rfl

/-! ## C8 — keep-alive signals on the caller-facing wire -/

/-- C8 counterexample: a stream consisting of a single keep-alive signal
produces *three* caller-facing items: an empty-content `data: ` chunk
emitted for the keep-alive itself, then the `: keep-alive` comment, then
the `[DONE]` marker — so a keep-alive signal does produce a
`data: `-prefixed chunk of its own. -/
theorem keepalive_data_chunk_cex :
    streamChatCompletion "id" 0 "m" [keepAliveEvent] =
      [.dataChunk "id" 0 "m" "" none, .keepAliveComment, .doneMarker] ∧
    strStartsWith (renderSSE (.dataChunk "id" 0 "m" "" none)) "data: " = true := by
  constructor
  · decide
  · decide

/-- C8 (amended): every keep-alive signal is emitted as the non-data
comment line `": keep-alive"` (prefixed `': '`), but the emitting loop
iteration *first* yields a `data: `-prefixed chunk envelope (carrying the
signal's empty content and null finish reason) for the same keep-alive
signal. -/
theorem keepalive_comment_emission (rid : String) (created : Int)
    (model : String) (c : StreamEvent) (hk : c.keep_alive = true) :
    chunkLines rid created model c =
      [.dataChunk rid created model c.content c.finish_reason,
       .keepAliveComment] ∧
    renderSSE .keepAliveComment = ": keep-alive\n\n" ∧
    renderSSE (.dataChunk rid created model c.content c.finish_reason) =
      "data: " ++
        serializeChunk rid created model c.content c.finish_reason ++ "\n\n" := by
  refine ⟨?_, rfl, rfl⟩
  simp [chunkLines, hk]

/-- C8 witness: the amended statement at the concrete keep-alive event. -/
theorem keepalive_comment_emission_witness :
    chunkLines "id" 0 "m" keepAliveEvent =
      [.dataChunk "id" 0 "m" "" none, .keepAliveComment] ∧
    renderSSE .keepAliveComment = ": keep-alive\n\n" :=
  ⟨((keepalive_comment_emission "id" 0 "m" keepAliveEvent rfl).1),
   (keepalive_comment_emission "id" 0 "m" keepAliveEvent rfl).2.1⟩

end InferenceServer


namespace InferenceServer

/-! ## C6 — stream termination (mock pipeline) -/

/-- Splitting never produces an empty token list from a nonempty
accumulator. -/
theorem pySplitAux_ne_nil (cs : List Char) :
    ∀ acc : List Char, acc ≠ [] → pySplitAux cs acc ≠ [] := by
  induction cs with
  | nil =>
    intro acc hacc
    cases acc with
    | nil => exact absurd rfl hacc
    | cons a as => simp [pySplitAux]
  | cons c cs IH =>
    intro acc hacc
    cases acc with
    | nil => exact absurd rfl hacc
    | cons a as =>
      by_cases hw : c.isWhitespace
      · simp [pySplitAux, hw]
      · simp only [pySplitAux, hw, Bool.false_eq_true, if_false]
        exact IH _ (by simp)

/-- Pushing one non-blank character onto the accumulator. -/
theorem pySplitAux_cons_not_ws {c : Char} (h : c.isWhitespace = false)
    (cs acc : List Char) :
    pySplitAux (c :: cs) acc = pySplitAux cs (c :: acc) := by
  cases acc <;> simp [pySplitAux, h]

/-- The mock response content always splits into at least one word: the
text begins with the non-blank prefix `"Mock response to: "`. -/
theorem mock_words_ne_nil (messages : List Message) :
    pySplit (mockGenerate messages).content ≠ [] := by
  show pySplit ("Mock response to: " ++ strTake (mockUserContent messages) 50) ≠ []
  have hdata : ("Mock response to: " ++ strTake (mockUserContent messages) 50).toList
      = 'M' :: ("ock response to: ".data ++
          (strTake (mockUserContent messages) 50).data) := by
    show ("Mock response to: " ++ strTake (mockUserContent messages) 50).data = _
    rw [String.data_append]
    rfl
  rw [pySplit, hdata, pySplitAux_cons_not_ws (by decide)]
  exact pySplitAux_ne_nil _ ['M'] (by simp)

/-- The word-indexed chunk map of the mock stream, with the index origin
and the terminal index generalized: it always decomposes into finishless
word chunks followed by the single `"stop"` chunk. -/
theorem mock_enumFrom_shape (total : ℕ) :
    ∀ (ws : List String) (n : ℕ), ws ≠ [] → n + ws.length = total →
    ∃ pre w,
      (ws.enumFrom n).map (fun p : ℕ × String =>
        ({ content := p.2 ++ " "
           finish_reason := if p.1 = total - 1 then some "stop" else none
           keep_alive := false } : StreamEvent)) =
        pre ++ [{ content := w ++ " ", finish_reason := some "stop"
                  keep_alive := false }] ∧
      ∀ c ∈ pre, ∃ w', c = ({ content := w' ++ " ", finish_reason := none
                              keep_alive := false } : StreamEvent) := by
  intro ws
  induction ws with
  | nil => intro n hne; exact absurd rfl hne
  | cons w ws IH =>
    intro n hne hlen
    cases ws with
    | nil =>
      refine ⟨[], w, ?_, by simp⟩
      have hn : n = total - 1 := by
        simp only [List.length_cons, List.length_nil] at hlen
        omega
      simp [List.enumFrom, hn]
    | cons w2 ws2 =>
      have hlt : n ≠ total - 1 := by
        simp only [List.length_cons] at hlen
        omega
      obtain ⟨pre, wlast, hshape, hpre⟩ :=
        IH (n + 1) (by simp) (by simp only [List.length_cons] at hlen ⊢; omega)
      refine ⟨{ content := w ++ " ", finish_reason := none
                keep_alive := false } :: pre, wlast, ?_, ?_⟩
      · rw [show List.enumFrom n (w :: w2 :: ws2) =
            (n, w) :: List.enumFrom (n + 1) (w2 :: ws2) from rfl,
          List.map_cons, hshape, if_neg hlt]
        rfl
      · intro c hc
        rcases List.mem_cons.mp hc with rfl | hc'
        · exact ⟨w, rfl⟩
        · exact hpre c hc'

/-- The SSE reframing loop distributes over concatenation of the chunk
sequence. -/
theorem sseOfChunks_append (rid : String) (created : Int) (model : String)
    (a b : List StreamEvent) :
    sseOfChunks rid created model (a ++ b) =
      sseOfChunks rid created model a ++ sseOfChunks rid created model b := by
  induction a with
  | nil => simp [sseOfChunks]
  | cons c cs IH => simp [sseOfChunks, IH]

/-- On a chunk sequence without keep-alive signals the SSE reframing loop
emits exactly one `data: ` chunk per event. -/
theorem sseOfChunks_no_keepalive (rid : String) (created : Int)
    (model : String) (cs : List StreamEvent)
    (h : ∀ c ∈ cs, c.keep_alive = false) :
    sseOfChunks rid created model cs =
      cs.map fun c => .dataChunk rid created model c.content c.finish_reason := by
  induction cs with
  | nil => simp [sseOfChunks]
  | cons c cs IH =>
    have hc : c.keep_alive = false := h c (by simp)
    simp only [sseOfChunks, chunkLines, hc, Bool.false_eq_true, if_false,
      List.append_nil, List.map_cons, List.singleton_append, List.cons_append,
      List.nil_append]
    exact congrArg _ (IH fun c' hc' => h c' (by simp [hc']))

/-- C6: the caller-facing SSE sequence of a streaming call against the mock
client always ends with exactly one terminal chunk carrying the finish
reason `"stop"`, immediately followed by the single `data: [DONE]` marker;
everything before the terminal chunk is a finishless content chunk (in
particular no keep-alive item and no second finish-bearing chunk exists,
and no content chunk follows the terminal one). -/
theorem mock_stream_termination (messages : List Message) (rid : String)
    (created : Int) (model : String) :
    ∃ pre w,
      streamChatCompletion rid created model (mockStream messages) =
        pre ++ [.dataChunk rid created model (w ++ " ") (some "stop"),
                .doneMarker] ∧
      ∀ item ∈ pre, ∃ w',
        item = .dataChunk rid created model (w' ++ " ") none := by
  obtain ⟨pre, w, hshape, hpre⟩ :=
    mock_enumFrom_shape (pySplit (mockGenerate messages).content).length
      (pySplit (mockGenerate messages).content) 0 (mock_words_ne_nil messages)
      (by simp)
  have hchunks : mockStream messages =
      pre ++ [(⟨w ++ " ", some "stop", false⟩ : StreamEvent)] := by
    rw [mockStream, mockChunksOf]
    exact hshape
  have hplain : ∀ c ∈ pre ++ [(⟨w ++ " ", some "stop", false⟩ : StreamEvent)],
      c.keep_alive = false := by
    intro c hc
    rcases List.mem_append.mp hc with hc' | hc'
    · obtain ⟨w', rfl⟩ := hpre c hc'
      rfl
    · rcases List.mem_singleton.mp hc' with rfl
      rfl
  refine ⟨pre.map (fun c =>
      .dataChunk rid created model c.content c.finish_reason), w, ?_, ?_⟩
  · rw [streamChatCompletion, hchunks,
      sseOfChunks_no_keepalive rid created model _ hplain, List.map_append,
      List.map_singleton, List.append_assoc]
    rfl
  · intro item hitem
    obtain ⟨c, hc, rfl⟩ := List.mem_map.mp hitem
    obtain ⟨w', rfl⟩ := hpre c hc
    exact ⟨w', rfl⟩

end InferenceServer
